import Mathlib

/-!
Verification of the real-time physics and scoring core of the basketball
arena simulation (src/hw5.js).  The JavaScript source is shallowly embedded
below: vectors become a `Vec3` record over the reals, the mutable
`gameState` object becomes the `GameState` record, and each mutating
function of `PhysicsSystem` / `InputSystem` and the frame loop `animate`
becomes a state-transforming function.  Cosmetic collaborators (UI text,
particles, net animation, trail effects, rendering) only consume state and
are omitted; every statement below is about the simulation state itself.
-/

noncomputable section

open scoped Classical

/-- Mirror of THREE.Vector3 restricted to the operations the core uses. -/
@[ext]
structure Vec3 where
  x : ℝ
  y : ℝ
  z : ℝ

def Vec3.add (v w : Vec3) : Vec3 := ⟨v.x + w.x, v.y + w.y, v.z + w.z⟩

def Vec3.sub (v w : Vec3) : Vec3 := ⟨v.x - w.x, v.y - w.y, v.z - w.z⟩

def Vec3.multiplyScalar (v : Vec3) (s : ℝ) : Vec3 := ⟨v.x * s, v.y * s, v.z * s⟩

def Vec3.dot (v w : Vec3) : ℝ := v.x * w.x + v.y * w.y + v.z * w.z

/-- THREE.Vector3.length: Euclidean norm. -/
def Vec3.length (v : Vec3) : ℝ := Real.sqrt (v.x * v.x + v.y * v.y + v.z * v.z)

/-- THREE.Vector3.normalize divides by `length() || 1`, so the zero vector is
returned unchanged instead of producing a division by zero. -/
def Vec3.normalize (v : Vec3) : Vec3 :=
  if v.length = 0 then v else v.multiplyScalar (1 / v.length)

/-- THREE.Vector3.reflect: `v - 2 * (v.dot n) * n` (n assumed unit length). -/
def Vec3.reflect (v n : Vec3) : Vec3 := v.sub (n.multiplyScalar (2 * v.dot n))

/-- THREE.Vector3.distanceTo. -/
def Vec3.distanceTo (v w : Vec3) : ℝ := (v.sub w).length

-- Constants of src/hw5.js (lines 20-46).
def COURT_LENGTH : ℝ := 28
def COURT_WIDTH : ℝ := 15
def COURT_FLOOR_Y : ℝ := 0
def LINES_Y_OFFSET : ℝ := 0.01
def RIM_Y : ℝ := 3.05
def RIM_RADIUS : ℝ := 0.225
def BACKBOARD_WIDTH : ℝ := 1.8
def BACKBOARD_HEIGHT : ℝ := 1.05
def BACKBOARD_DIST_FROM_BASELINE : ℝ := 1.2
def POLE_RADIUS : ℝ := 0.15
def BALL_RADIUS : ℝ := 0.1213
def GRAVITY : ℝ := -9.8
def BALL_MOVEMENT_SPEED : ℝ := 0.08
def MIN_SHOT_POWER : ℝ := 0.1
def MAX_SHOT_POWER : ℝ := 1.0
def POWER_STEP : ℝ := 0.0008
def BOUNCE_DAMPING : ℝ := 0.7
def ROTATION_SCALE : ℝ := 6.0
def BACKBOARD_DAMP_FACTOR : ℝ := 0.6

-- Local constants of the collision / shot functions.
def rimThickness : ℝ := 0.025
def backboardThickness : ℝ := 0.08
def TIME_TO_RIM : ℝ := 1.6
def MAX_SHOOTING_DISTANCE : ℝ := 25.0
def SHOT_ERROR_SENSITIVITY : ℝ := 0.4
def THREE_POINT_ARC_RADIUS : ℝ := 6.75
def THREE_POINT_STRAIGHT_LINE_Y : ℝ := COURT_WIDTH / 2 - 0.9

-- World-space hoop geometry, as built by createHoop (hw5.js lines 1256-1320):
-- the right hoop group has the identity transform, the left hoop is the same
-- group rotated by pi around the y axis, so localToWorld negates x and z.
def poleX : ℝ := COURT_LENGTH / 2 + POLE_RADIUS + 0.5
def backboardX : ℝ := poleX - POLE_RADIUS - BACKBOARD_DIST_FROM_BASELINE
def connectorDepth : ℝ := 0.15
def connectorX : ℝ := backboardX - 0.04 - connectorDepth / 2
def rimLocalPosition : Vec3 := ⟨connectorX - connectorDepth / 2 - RIM_RADIUS, RIM_Y, 0⟩
def backboardLocalPosition : Vec3 := ⟨backboardX, RIM_Y + BACKBOARD_HEIGHT / 2 - 0.15, 0⟩

/-- localToWorld of the left hoop group (rotation.y = pi). -/
def yawPi (v : Vec3) : Vec3 := ⟨-v.x, v.y, -v.z⟩

def rightRimWorld : Vec3 := rimLocalPosition
def leftRimWorld : Vec3 := yawPi rimLocalPosition
def rightBackboardWorld : Vec3 := backboardLocalPosition
def leftBackboardWorld : Vec3 := yawPi backboardLocalPosition

/-- gameState.lastShotResult takes the string values '' / 'made' / 'missed'. -/
inductive ShotResult where
  | empty : ShotResult
  | made : ShotResult
  | missed : ShotResult
  deriving DecidableEq

/-- The simulation-relevant fields of the global gameState object
(hw5.js lines 561-589). -/
structure GameState where
  ballPosition : Vec3
  ballVelocity : Vec3
  ballRotation : Vec3
  ballAngularVelocity : Vec3
  shotPower : ℝ
  isMoving : Bool
  isShooting : Bool
  score : ℕ
  shotAttempts : ℕ
  shotsMade : ℕ
  lastShotResult : ShotResult
  shotFeedbackTimer : ℝ
  shotOrigin : Vec3
  isThreePointer : Bool
  lastBallPosition : Vec3

/-- Initial gameState (hw5.js lines 561-589). -/
def initialGameState : GameState where
  ballPosition := ⟨0, COURT_FLOOR_Y + BALL_RADIUS + LINES_Y_OFFSET, 0⟩
  ballVelocity := ⟨0, 0, 0⟩
  ballRotation := ⟨0, 0, 0⟩
  ballAngularVelocity := ⟨0, 0, 0⟩
  shotPower := 0.5
  isMoving := false
  isShooting := false
  score := 0
  shotAttempts := 0
  shotsMade := 0
  lastShotResult := ShotResult.empty
  shotFeedbackTimer := 0
  shotOrigin := ⟨0, 0, 0⟩
  isThreePointer := false
  lastBallPosition := ⟨0, 0, 0⟩

-- ---------------------------------------------------------------------------
-- PhysicsSystem.updateBallPhysics (hw5.js lines 1511-1589), split into the
-- consecutive blocks of its isShooting branch.
-- ---------------------------------------------------------------------------

/-- Gravity and position integration (lines 1516-1521). -/
def integrateStep (deltaTime : ℝ) (s : GameState) : GameState :=
  let v : Vec3 := ⟨s.ballVelocity.x, s.ballVelocity.y + GRAVITY * deltaTime, s.ballVelocity.z⟩
  { s with ballVelocity := v, ballPosition := s.ballPosition.add (v.multiplyScalar deltaTime) }

/-- Ground collision and bounce, including the low-velocity stop
(lines 1529-1547). -/
def floorResolve (s : GameState) : GameState :=
  if s.ballPosition.y ≤ COURT_FLOOR_Y + BALL_RADIUS + LINES_Y_OFFSET then
    let p : Vec3 := ⟨s.ballPosition.x, COURT_FLOOR_Y + BALL_RADIUS + LINES_Y_OFFSET, s.ballPosition.z⟩
    let v : Vec3 := ⟨s.ballVelocity.x * BOUNCE_DAMPING, -s.ballVelocity.y * BOUNCE_DAMPING,
      s.ballVelocity.z * BOUNCE_DAMPING⟩
    if |v.y| < 0.1 ∧ v.length < 0.5 then
      { s with ballPosition := p, ballVelocity := ⟨0, 0, 0⟩,
               ballAngularVelocity := ⟨0, 0, 0⟩, isShooting := false }
    else
      { s with ballPosition := p, ballVelocity := v }
  else s

/-- Court boundary collision on the x axis (lines 1550-1557). -/
def wallResolveX (s : GameState) : GameState :=
  let courtEdgeX := COURT_LENGTH / 2 - BALL_RADIUS
  if s.ballPosition.x ≥ courtEdgeX then
    { s with ballPosition := ⟨courtEdgeX, s.ballPosition.y, s.ballPosition.z⟩,
             ballVelocity := ⟨-s.ballVelocity.x * BOUNCE_DAMPING, s.ballVelocity.y, s.ballVelocity.z⟩ }
  else if s.ballPosition.x ≤ -courtEdgeX then
    { s with ballPosition := ⟨-courtEdgeX, s.ballPosition.y, s.ballPosition.z⟩,
             ballVelocity := ⟨-s.ballVelocity.x * BOUNCE_DAMPING, s.ballVelocity.y, s.ballVelocity.z⟩ }
  else s

/-- Court boundary collision on the z axis (lines 1559-1566). -/
def wallResolveZ (s : GameState) : GameState :=
  let courtEdgeZ := COURT_WIDTH / 2 - BALL_RADIUS
  if s.ballPosition.z ≥ courtEdgeZ then
    { s with ballPosition := ⟨s.ballPosition.x, s.ballPosition.y, courtEdgeZ⟩,
             ballVelocity := ⟨s.ballVelocity.x, s.ballVelocity.y, -s.ballVelocity.z * BOUNCE_DAMPING⟩ }
  else if s.ballPosition.z ≤ -courtEdgeZ then
    { s with ballPosition := ⟨s.ballPosition.x, s.ballPosition.y, -courtEdgeZ⟩,
             ballVelocity := ⟨s.ballVelocity.x, s.ballVelocity.y, -s.ballVelocity.z * BOUNCE_DAMPING⟩ }
  else s

/-- In-flight ball rotation update (lines 1568-1576). -/
def rotationStep (deltaTime : ℝ) (s : GameState) : GameState :=
  let s1 :=
    if s.ballVelocity.length > 0.1 then
      let axis := (Vec3.mk (-s.ballVelocity.z) 0 s.ballVelocity.x).normalize
      { s with ballAngularVelocity :=
          axis.multiplyScalar (s.ballVelocity.length * ROTATION_SCALE * deltaTime) }
    else s
  { s1 with ballRotation := s1.ballRotation.add s1.ballAngularVelocity }

/-- One hoop of PhysicsSystem.checkBackboardCollision (lines 1596-1645);
isRight selects the hitFromFront sign convention of the right vs left hoop. -/
def backboardStepHoop (isRight : Bool) (backboardPos : Vec3) (s : GameState) : GameState :=
  let ballToBackboard := s.ballPosition.sub backboardPos
  if |ballToBackboard.y| ≤ BACKBOARD_HEIGHT / 2 + BALL_RADIUS ∧
      |ballToBackboard.z| ≤ BACKBOARD_WIDTH / 2 + BALL_RADIUS then
    let hitFromFront :=
      if isRight then s.ballPosition.x < backboardPos.x else s.ballPosition.x > backboardPos.x
    let collisionThreshold := backboardThickness / 2 + BALL_RADIUS
    if |ballToBackboard.x| ≤ collisionThreshold then
      let newX :=
        if isRight then
          (if hitFromFront then backboardPos.x - collisionThreshold
           else backboardPos.x + collisionThreshold)
        else
          (if hitFromFront then backboardPos.x + collisionThreshold
           else backboardPos.x - collisionThreshold)
      { s with ballPosition := ⟨newX, s.ballPosition.y, s.ballPosition.z⟩,
               ballVelocity := ⟨-s.ballVelocity.x * BOUNCE_DAMPING * BACKBOARD_DAMP_FACTOR,
                 s.ballVelocity.y * BOUNCE_DAMPING * 0.9 * BACKBOARD_DAMP_FACTOR,
                 s.ballVelocity.z * BOUNCE_DAMPING * 0.95 * BACKBOARD_DAMP_FACTOR⟩ }
    else s
  else s

/-- checkBackboardCollision iterates [rightHoop, leftHoop] in order. -/
def checkBackboardCollision (s : GameState) : GameState :=
  backboardStepHoop false leftBackboardWorld (backboardStepHoop true rightBackboardWorld s)

-- ---------------------------------------------------------------------------
-- PhysicsSystem.checkHoopCollision / scoreBasket (hw5.js lines 1648-1724).
-- ---------------------------------------------------------------------------

def ballToRim (rimPos : Vec3) (s : GameState) : Vec3 := s.ballPosition.sub rimPos

/-- horizontalDistance of checkHoopCollision (line 1661). -/
def rimHorizontalDistance (rimPos : Vec3) (s : GameState) : ℝ :=
  Real.sqrt ((ballToRim rimPos s).x * (ballToRim rimPos s).x +
    (ballToRim rimPos s).z * (ballToRim rimPos s).z)

/-- verticalDistance of checkHoopCollision (line 1662). -/
def rimVerticalDistance (rimPos : Vec3) (s : GameState) : ℝ := |(ballToRim rimPos s).y|

/-- Made-basket test (lines 1665-1667). -/
def madeBasketCond (rimPos : Vec3) (s : GameState) : Prop :=
  rimHorizontalDistance rimPos s < RIM_RADIUS - BALL_RADIUS * 0.5 ∧
    rimVerticalDistance rimPos s < BALL_RADIUS ∧ s.ballVelocity.y < 0

/-- Rim-band collision test (lines 1672-1674). -/
def rimBandCond (rimPos : Vec3) (s : GameState) : Prop :=
  rimVerticalDistance rimPos s < BALL_RADIUS + rimThickness ∧
    rimHorizontalDistance rimPos s > RIM_RADIUS - BALL_RADIUS ∧
    rimHorizontalDistance rimPos s < RIM_RADIUS + rimThickness

/-- PhysicsSystem.scoreBasket (lines 1695-1724); UI, net animation and
particle calls are presentation-only and omitted. -/
def scoreBasket (s : GameState) : GameState :=
  if s.lastShotResult ≠ ShotResult.made then
    { s with score := s.score + (if s.isThreePointer then 3 else 2),
             shotsMade := s.shotsMade + 1,
             lastShotResult := ShotResult.made }
  else s

/-- Rim-band bounce response (lines 1676-1682): reflect about the horizontal
collision normal, damp, force an upward pop, and reposition outside the rim. -/
def rimBounce (rimPos : Vec3) (s : GameState) : GameState :=
  let btr := ballToRim rimPos s
  let collisionNormal := (Vec3.mk btr.x 0 btr.z).normalize
  let v1 := (s.ballVelocity.reflect collisionNormal).multiplyScalar BOUNCE_DAMPING
  let v2 : Vec3 := ⟨v1.x, |v1.y * BOUNCE_DAMPING * 0.5| + 0.5, v1.z⟩
  let reposition := collisionNormal.multiplyScalar
    (RIM_RADIUS + BALL_RADIUS - rimHorizontalDistance rimPos s + 0.01)
  { s with ballVelocity := v2, ballPosition := s.ballPosition.add reposition }

/-- One hoop of PhysicsSystem.checkHoopCollision (lines 1654-1692). -/
def hoopStep (rimPos : Vec3) (s : GameState) : GameState :=
  if madeBasketCond rimPos s then scoreBasket s
  else if rimBandCond rimPos s then rimBounce rimPos s
  else s

/-- checkHoopCollision iterates [rightHoop, leftHoop] in order. -/
def checkHoopCollision (s : GameState) : GameState :=
  hoopStep leftRimWorld (hoopStep rightRimWorld s)

/-- PhysicsSystem.updateBallPhysics (lines 1511-1589): the whole isShooting
branch, in source order; lastBallPosition is always recorded first. -/
def updateBallPhysics (deltaTime : ℝ) (s0 : GameState) : GameState :=
  let s := { s0 with lastBallPosition := s0.ballPosition }
  if s.isShooting then
    checkHoopCollision (checkBackboardCollision (rotationStep deltaTime
      (wallResolveZ (wallResolveX (floorResolve (integrateStep deltaTime s))))))
  else s

-- ---------------------------------------------------------------------------
-- 3-point classification and InputSystem (hw5.js lines 535-555, 1731-1867).
-- ---------------------------------------------------------------------------

/-- isThreePointShot (lines 535-555). -/
def isThreePointShot (shotPosition targetHoopPos : Vec3) : Bool :=
  let horizontalDistance := Real.sqrt ((shotPosition.x - targetHoopPos.x) ^ 2 +
    (shotPosition.z - targetHoopPos.z) ^ 2)
  if horizontalDistance ≥ THREE_POINT_ARC_RADIUS then
    if |shotPosition.z| ≤ THREE_POINT_STRAIGHT_LINE_Y then true
    else decide (|shotPosition.x - targetHoopPos.x| ≥ THREE_POINT_ARC_RADIUS)
  else false

/-- Per-frame key state consumed by InputSystem.handleInput. -/
structure Keys where
  arrowLeft : Bool
  arrowRight : Bool
  arrowUp : Bool
  arrowDown : Bool
  keyW : Bool
  keyS : Bool

def noKeys : Keys := ⟨false, false, false, false, false, false⟩

/-- Arrow-key movement block of InputSystem.handleInput (lines 1735-1779).
Later key assignments to the same moveVector component overwrite earlier
ones, as in the source. -/
def movementStep (deltaTime : ℝ) (keys : Keys) (s : GameState) : GameState :=
  let mvx : ℝ := if keys.arrowRight then BALL_MOVEMENT_SPEED
    else if keys.arrowLeft then -BALL_MOVEMENT_SPEED else 0
  let mvz : ℝ := if keys.arrowDown then BALL_MOVEMENT_SPEED
    else if keys.arrowUp then -BALL_MOVEMENT_SPEED else 0
  let moved := keys.arrowLeft ∨ keys.arrowRight ∨ keys.arrowUp ∨ keys.arrowDown
  let moveVector : Vec3 := ⟨mvx, 0, mvz⟩
  if moved then
    let newPosition := s.ballPosition.add moveVector
    let maxX := COURT_LENGTH / 2 - BALL_RADIUS
    let maxZ := COURT_WIDTH / 2 - BALL_RADIUS
    let clamped : Vec3 := ⟨max (-maxX) (min maxX newPosition.x), newPosition.y,
      max (-maxZ) (min maxZ newPosition.z)⟩
    let axis := (Vec3.mk (-moveVector.z) 0 moveVector.x).normalize
    let av := axis.multiplyScalar (moveVector.length * ROTATION_SCALE * deltaTime)
    { s with ballPosition := clamped, ballAngularVelocity := av,
             ballRotation := s.ballRotation.add av, isMoving := true }
  else
    { s with isMoving := false,
             ballAngularVelocity := s.ballAngularVelocity.multiplyScalar 0.95 }

/-- Power-adjustment block of InputSystem.handleInput (lines 1781-1789). -/
def powerStep (keys : Keys) (s : GameState) : GameState :=
  let s1 :=
    if keys.keyW then { s with shotPower := min MAX_SHOT_POWER (s.shotPower + POWER_STEP) }
    else s
  if keys.keyS then { s1 with shotPower := max MIN_SHOT_POWER (s1.shotPower - POWER_STEP) }
  else s1

/-- InputSystem.handleInput (lines 1732-1790). -/
def handleInput (deltaTime : ℝ) (keys : Keys) (s : GameState) : GameState :=
  if s.isShooting then s
  else powerStep keys (movementStep deltaTime keys s)

/-- InputSystem.shootBall (lines 1792-1853). -/
def shootBall (s : GameState) : GameState :=
  if s.isShooting then s
  else
    let distToRight := s.ballPosition.distanceTo rightRimWorld
    let distToLeft := s.ballPosition.distanceTo leftRimWorld
    let targetHoopPos := if distToRight < distToLeft then rightRimWorld else leftRimWorld
    let toHoop := targetHoopPos.sub s.ballPosition
    let horizontalDistance := Real.sqrt (toHoop.x * toHoop.x + toHoop.z * toHoop.z)
    let perfectVelocity : Vec3 := ⟨toHoop.x / TIME_TO_RIM,
      (toHoop.y - 0.5 * GRAVITY * TIME_TO_RIM * TIME_TO_RIM) / TIME_TO_RIM,
      toHoop.z / TIME_TO_RIM⟩
    let distFrac := min 1.0 (horizontalDistance / MAX_SHOOTING_DISTANCE)
    let idealPower := MIN_SHOT_POWER + distFrac * (MAX_SHOT_POWER - MIN_SHOT_POWER)
    let errorFactor := 1.0 + (s.shotPower - idealPower) * SHOT_ERROR_SENSITIVITY
    { s with shotOrigin := s.ballPosition,
             isThreePointer := isThreePointShot s.ballPosition targetHoopPos,
             ballVelocity := perfectVelocity.multiplyScalar errorFactor,
             isShooting := true,
             shotAttempts := s.shotAttempts + 1,
             lastShotResult := ShotResult.empty,
             shotFeedbackTimer := max 2.0 (TIME_TO_RIM + 0.5) }

/-- InputSystem.resetBall (lines 1855-1867). -/
def resetBall (s : GameState) : GameState :=
  { s with ballPosition := ⟨0, COURT_FLOOR_Y + BALL_RADIUS + LINES_Y_OFFSET, 0⟩,
           ballVelocity := ⟨0, 0, 0⟩,
           ballRotation := ⟨0, 0, 0⟩,
           ballAngularVelocity := ⟨0, 0, 0⟩,
           shotPower := 0.5,
           isShooting := false,
           isMoving := false,
           lastShotResult := ShotResult.empty }

/-- Shot feedback timeout handling in animate (hw5.js lines 2002-2013). -/
def shotFeedbackStep (deltaTime : ℝ) (s : GameState) : GameState :=
  if s.shotFeedbackTimer > 0 then
    let t := s.shotFeedbackTimer - deltaTime
    if t ≤ 0 ∧ s.lastShotResult = ShotResult.empty then
      { s with shotFeedbackTimer := t, lastShotResult := ShotResult.missed }
    else { s with shotFeedbackTimer := t }
  else s

/-- One frame of animate (lines 1985-2019): input handling, physics and
collision resolution, then the shot feedback timeout; the remaining updates
(day/night, predictor, particles, net, render) do not touch the simulation
state. -/
def frameStep (deltaTime : ℝ) (keys : Keys) (s : GameState) : GameState :=
  shotFeedbackStep deltaTime (updateBallPhysics deltaTime (handleInput deltaTime keys s))

-- ---------------------------------------------------------------------------
-- Definitions taken from the specification text, for refinement statements.
-- ---------------------------------------------------------------------------

/-- Modelled from the spec (section 4.4, 3-point classification): true iff the
horizontal distance from the shot origin to the target is at least the arc
radius, and the origin is within the straight-line lane bound in z or at
least the arc radius from the target along the baseline (x) axis. -/
def specThreePointPred (origin target : Vec3) : Prop :=
  Real.sqrt ((origin.x - target.x) ^ 2 + (origin.z - target.z) ^ 2) ≥ THREE_POINT_ARC_RADIUS ∧
    (|origin.z| ≤ THREE_POINT_STRAIGHT_LINE_Y ∨
      |origin.x - target.x| ≥ THREE_POINT_ARC_RADIUS)

/-- Modelled from the spec (section 4.4, shot model): the perfect
constant-acceleration solution toward the nearest hoop, uniformly scaled by
the power-error factor. -/
def specReleaseVelocity (pos : Vec3) (power : ℝ) : Vec3 :=
  let target := if pos.distanceTo rightRimWorld < pos.distanceTo leftRimWorld
    then rightRimWorld else leftRimWorld
  let toHoop := target.sub pos
  let perfect : Vec3 := ⟨toHoop.x / TIME_TO_RIM,
    (toHoop.y - 0.5 * GRAVITY * TIME_TO_RIM * TIME_TO_RIM) / TIME_TO_RIM,
    toHoop.z / TIME_TO_RIM⟩
  let hd := Real.sqrt (toHoop.x * toHoop.x + toHoop.z * toHoop.z)
  let idealPower := MIN_SHOT_POWER +
    min 1.0 (hd / MAX_SHOOTING_DISTANCE) * (MAX_SHOT_POWER - MIN_SHOT_POWER)
  let errorFactor := 1.0 + (power - idealPower) * SHOT_ERROR_SENSITIVITY
  perfect.multiplyScalar errorFactor

-- ---------------------------------------------------------------------------
-- Concrete states used to instantiate the theorems.
-- ---------------------------------------------------------------------------

/-- Ball in flight, driven to just below the floor rest height with downward
velocity -5 (spec Scenario C). -/
def floorTestState : GameState :=
  { initialGameState with
      isShooting := true,
      ballPosition := ⟨0, COURT_FLOOR_Y + LINES_Y_OFFSET + BALL_RADIUS - 0.01, 0⟩,
      ballVelocity := ⟨0, -5, 0⟩ }

/-- A generic in-flight state. -/
def flightState : GameState :=
  { initialGameState with isShooting := true, shotAttempts := 1, shotFeedbackTimer := 2.1 }

/-- In-flight attempt with pending result and 1 second left on the timer. -/
def pendingResetState : GameState :=
  { initialGameState with isShooting := true, shotAttempts := 1, shotFeedbackTimer := 1 }

/-- Ball exactly above/below the right rim center (degenerate horizontal
ball-to-rim vector). -/
def rimCenterState : GameState :=
  { initialGameState with
      isShooting := true,
      ballPosition := ⟨rightRimWorld.x, 3, rightRimWorld.z⟩,
      ballVelocity := ⟨2, 3, 1⟩ }

/-- Descending ball inside the right rim scoring region, with the feedback
timer about to expire and the result still empty. -/
def lateMakeState : GameState :=
  { initialGameState with
      isShooting := true,
      shotAttempts := 1,
      shotFeedbackTimer := 0.1,
      ballPosition := ⟨rightRimWorld.x, rightRimWorld.y - 0.05, rightRimWorld.z⟩,
      ballVelocity := ⟨0, -1, 0⟩ }

/-- lateMakeState after the feedback timer expires (deltaTime 0.2). -/
def lateMakeExpired : GameState :=
  { lateMakeState with
      shotFeedbackTimer := lateMakeState.shotFeedbackTimer - 0.2,
      lastShotResult := ShotResult.missed }

/-- lateMakeExpired after the made-basket condition fires anyway. -/
def lateMakeScored : GameState :=
  { lateMakeExpired with
      score := lateMakeExpired.score + (if lateMakeExpired.isThreePointer then 3 else 2),
      shotsMade := lateMakeExpired.shotsMade + 1,
      lastShotResult := ShotResult.made }

/-- Descending ball inside the right rim scoring region with pending result. -/
def madeTestState : GameState :=
  { initialGameState with
      isShooting := true,
      shotAttempts := 1,
      ballPosition := ⟨rightRimWorld.x, rightRimWorld.y - 0.05, rightRimWorld.z⟩,
      ballVelocity := ⟨0, -2, 0⟩ }

/-- Same geometry, but the attempt was already resolved as Missed. -/
def missedMakeState : GameState :=
  { madeTestState with lastShotResult := ShotResult.missed }

/-- Slow ball inside the right rim band, offset 0.2 in x from the rim center. -/
def rimBounceState : GameState :=
  { initialGameState with
      isShooting := true,
      ballPosition := ⟨rightRimWorld.x + 0.2, rightRimWorld.y, rightRimWorld.z⟩,
      ballVelocity := ⟨0.1, 0, 0⟩ }

/-- Shot origin at horizontal distance 7 directly in front of the right hoop
(spec Scenario D). -/
def scenarioDOrigin : Vec3 :=
  ⟨rightRimWorld.x - 7, COURT_FLOOR_Y + BALL_RADIUS + LINES_Y_OFFSET, 0⟩

-- ---------------------------------------------------------------------------
-- Helper lemmas.
-- ---------------------------------------------------------------------------

lemma Vec3.length_le_length (v w : Vec3)
    (h : v.x * v.x + v.y * v.y + v.z * v.z ≤ w.x * w.x + w.y * w.y + w.z * w.z) :
    v.length ≤ w.length :=
  Real.sqrt_le_sqrt h

lemma ballToRim_x (rimPos : Vec3) (s : GameState) :
    (ballToRim rimPos s).x = s.ballPosition.x - rimPos.x := rfl

lemma ballToRim_y (rimPos : Vec3) (s : GameState) :
    (ballToRim rimPos s).y = s.ballPosition.y - rimPos.y := rfl

lemma ballToRim_z (rimPos : Vec3) (s : GameState) :
    (ballToRim rimPos s).z = s.ballPosition.z - rimPos.z := rfl

lemma rimHorizontalDistance_eq (rimPos : Vec3) (s : GameState) :
    rimHorizontalDistance rimPos s =
      Real.sqrt ((s.ballPosition.x - rimPos.x) * (s.ballPosition.x - rimPos.x) +
        (s.ballPosition.z - rimPos.z) * (s.ballPosition.z - rimPos.z)) := rfl

lemma rimVerticalDistance_eq (rimPos : Vec3) (s : GameState) :
    rimVerticalDistance rimPos s = |s.ballPosition.y - rimPos.y| := rfl

lemma rimHorizontalDistance_eq_zero (rimPos : Vec3) (s : GameState)
    (hx : s.ballPosition.x = rimPos.x) (hz : s.ballPosition.z = rimPos.z) :
    rimHorizontalDistance rimPos s = 0 := by
  rw [rimHorizontalDistance_eq, hx, hz]
  simp

lemma madeBasketCond_at_center (rimPos : Vec3) (s : GameState)
    (hx : s.ballPosition.x = rimPos.x) (hz : s.ballPosition.z = rimPos.z)
    (hy : |s.ballPosition.y - rimPos.y| < BALL_RADIUS) (hv : s.ballVelocity.y < 0) :
    madeBasketCond rimPos s :=
  ⟨by
    rw [rimHorizontalDistance_eq_zero rimPos s hx hz]
    norm_num [RIM_RADIUS, BALL_RADIUS], by rw [rimVerticalDistance_eq]; exact hy, hv⟩

lemma scoreBasket_scores (s : GameState) (h : s.lastShotResult ≠ ShotResult.made) :
    scoreBasket s = { s with
      score := s.score + (if s.isThreePointer then 3 else 2),
      shotsMade := s.shotsMade + 1,
      lastShotResult := ShotResult.made } := by
  unfold scoreBasket
  rw [if_pos h]

lemma scoreBasket_ballPosition (s : GameState) :
    (scoreBasket s).ballPosition = s.ballPosition := by
  unfold scoreBasket
  split_ifs <;> rfl

lemma scoreBasket_ballVelocity (s : GameState) :
    (scoreBasket s).ballVelocity = s.ballVelocity := by
  unfold scoreBasket
  split_ifs <;> rfl

lemma hoopStep_of_made (rimPos : Vec3) (s : GameState) (h : madeBasketCond rimPos s) :
    hoopStep rimPos s = scoreBasket s := by
  unfold hoopStep
  rw [if_pos h]

lemma rimBounce_counters (rimPos : Vec3) (s : GameState) :
    (rimBounce rimPos s).shotsMade = s.shotsMade ∧ (rimBounce rimPos s).score = s.score ∧
      (rimBounce rimPos s).lastShotResult = s.lastShotResult :=
  ⟨rfl, rfl, rfl⟩

lemma hoopStep_counters_of_not_made (rimPos : Vec3) (s : GameState)
    (h : ¬ madeBasketCond rimPos s) :
    (hoopStep rimPos s).shotsMade = s.shotsMade ∧ (hoopStep rimPos s).score = s.score ∧
      (hoopStep rimPos s).lastShotResult = s.lastShotResult := by
  unfold hoopStep
  rw [if_neg h]
  split_ifs with hb
  · exact rimBounce_counters rimPos s
  · exact ⟨rfl, rfl, rfl⟩

lemma shotFeedbackStep_expired (deltaTime : ℝ) (s : GameState)
    (h0 : 0 < s.shotFeedbackTimer) (h1 : s.shotFeedbackTimer ≤ deltaTime)
    (h2 : s.lastShotResult = ShotResult.empty) :
    shotFeedbackStep deltaTime s =
      { s with
        shotFeedbackTimer := s.shotFeedbackTimer - deltaTime,
        lastShotResult := ShotResult.missed } := by
  unfold shotFeedbackStep
  rw [if_pos h0, if_pos ⟨sub_nonpos.mpr h1, h2⟩]

lemma hoopStep_of_far (rimPos : Vec3) (s : GameState)
    (h : RIM_RADIUS + rimThickness ≤ rimHorizontalDistance rimPos s) :
    hoopStep rimPos s = s := by
  unfold hoopStep
  have hmade : ¬ madeBasketCond rimPos s := by
    intro hm
    have h1 := hm.1
    have : (RIM_RADIUS : ℝ) - BALL_RADIUS * 0.5 < RIM_RADIUS + rimThickness := by
      norm_num [RIM_RADIUS, BALL_RADIUS, rimThickness]
    linarith
  have hband : ¬ rimBandCond rimPos s := by
    intro hb
    have h3 := hb.2.2
    linarith
  rw [if_neg hmade, if_neg hband]

-- ---------------------------------------------------------------------------
-- Claim theorems.
-- ---------------------------------------------------------------------------

/-- Claim C10: while a shot is in flight (isShooting true), per-frame input
handling leaves the state unchanged (handleInput returns immediately), and a
shoot trigger starts no new attempt (shootBall returns immediately). -/
theorem inflight_inputs_inert (deltaTime : ℝ) (keys : Keys) (s : GameState)
    (h : s.isShooting = true) :
    handleInput deltaTime keys s = s ∧ shootBall s = s := by
  constructor
  · unfold handleInput
    rw [if_pos h]
  · unfold shootBall
    rw [if_pos h]

theorem inflight_inputs_inert_witness :
    flightState.isShooting = true ∧
    handleInput 0.016 noKeys flightState = flightState ∧ shootBall flightState = flightState :=
  ⟨rfl, inflight_inputs_inert 0.016 noKeys flightState rfl⟩

/-- Claim C9: resetBall leaves the shot feedback timer, score, shotAttempts
and shotsMade unchanged, so after a reset during an attempt with a pending
result the still-running timer later expires and resolves the attempt as
Missed. -/
theorem reset_preserves_attempt_feedback (s : GameState) (deltaTime : ℝ)
    (h0 : 0 < s.shotFeedbackTimer) (h1 : s.shotFeedbackTimer ≤ deltaTime) :
    (resetBall s).shotFeedbackTimer = s.shotFeedbackTimer ∧
    (resetBall s).score = s.score ∧
    (resetBall s).shotAttempts = s.shotAttempts ∧
    (resetBall s).shotsMade = s.shotsMade ∧
    (shotFeedbackStep deltaTime (resetBall s)).lastShotResult = ShotResult.missed := by
  refine ⟨rfl, rfl, rfl, rfl, ?_⟩
  have htim : (resetBall s).shotFeedbackTimer = s.shotFeedbackTimer := rfl
  have hres : (resetBall s).lastShotResult = ShotResult.empty := rfl
  unfold shotFeedbackStep
  rw [htim, hres, if_pos h0, if_pos ⟨sub_nonpos.mpr h1, rfl⟩]

theorem reset_preserves_attempt_feedback_witness :
    0 < pendingResetState.shotFeedbackTimer ∧
    (shotFeedbackStep 2 (resetBall pendingResetState)).lastShotResult = ShotResult.missed :=
  ⟨by norm_num [pendingResetState, initialGameState], by
    exact (reset_preserves_attempt_feedback pendingResetState 2
      (by norm_num [pendingResetState, initialGameState])
      (by norm_num [pendingResetState, initialGameState])).2.2.2.2⟩

/-- Claim C6: a ball in flight at height floor rest height minus 0.01 with
velocity.y = -5 is, after one floor resolution pass, clamped to the rest
height with velocity.y = 5 times the bounce damping. -/
theorem floor_bounce_scenario :
    (floorResolve floorTestState).ballPosition.y = COURT_FLOOR_Y + BALL_RADIUS + LINES_Y_OFFSET ∧
    (floorResolve floorTestState).ballVelocity.y = 5 * BOUNCE_DAMPING := by
  have hcond : floorTestState.ballPosition.y ≤ COURT_FLOOR_Y + BALL_RADIUS + LINES_Y_OFFSET := by
    norm_num [floorTestState, initialGameState, COURT_FLOOR_Y, BALL_RADIUS, LINES_Y_OFFSET]
  have hstop : ¬ (|(-(floorTestState.ballVelocity.y) * BOUNCE_DAMPING)| < 0.1 ∧
      (Vec3.mk (floorTestState.ballVelocity.x * BOUNCE_DAMPING)
        (-(floorTestState.ballVelocity.y) * BOUNCE_DAMPING)
        (floorTestState.ballVelocity.z * BOUNCE_DAMPING)).length < 0.5) := by
    rintro ⟨h, -⟩
    rw [abs_lt] at h
    norm_num [floorTestState, initialGameState, BOUNCE_DAMPING] at h
  unfold floorResolve
  rw [if_pos hcond, if_neg hstop]
  refine ⟨rfl, ?_⟩
  norm_num [floorTestState, initialGameState, BOUNCE_DAMPING]

/-- Claim C8: with the ball exactly at a rim center horizontally (zero-length
horizontal ball-to-rim vector), the rim-collision step leaves the ball
velocity unchanged; the rim-band reflect/normalize is never reached there
because the band test requires a strictly positive horizontal distance. -/
theorem rim_center_degenerate_safe (rimPos : Vec3) (s : GameState)
    (hx : s.ballPosition.x = rimPos.x) (hz : s.ballPosition.z = rimPos.z) :
    (hoopStep rimPos s).ballVelocity = s.ballVelocity := by
  have hhd : rimHorizontalDistance rimPos s = 0 := by
    unfold rimHorizontalDistance ballToRim Vec3.sub
    simp [hx, hz]
  unfold hoopStep
  by_cases hmade : madeBasketCond rimPos s
  · rw [if_pos hmade]
    unfold scoreBasket
    split_ifs <;> rfl
  · rw [if_neg hmade]
    have hband : ¬ rimBandCond rimPos s := by
      intro hb
      have h2 := hb.2.1
      rw [hhd] at h2
      norm_num [RIM_RADIUS, BALL_RADIUS] at h2
    rw [if_neg hband]

theorem rim_center_degenerate_safe_witness :
    rimCenterState.ballPosition.x = rightRimWorld.x ∧
    rimCenterState.ballPosition.z = rightRimWorld.z ∧
    (hoopStep rightRimWorld rimCenterState).ballVelocity = rimCenterState.ballVelocity :=
  ⟨rfl, rfl, rim_center_degenerate_safe rightRimWorld rimCenterState rfl rfl⟩

/-- Claim C5: isThreePointShot is true exactly when the horizontal distance
from origin to target is at least the arc radius and the origin is within
the lane bound in z or at least the arc radius from the target along the
baseline axis; in particular a shot from horizontal distance 7 directly in
front of the hoop is a three-pointer. -/
theorem three_point_classification :
    (∀ origin target : Vec3,
      isThreePointShot origin target = true ↔ specThreePointPred origin target) ∧
    isThreePointShot scenarioDOrigin rightRimWorld = true := by
  have hiff : ∀ origin target : Vec3,
      isThreePointShot origin target = true ↔ specThreePointPred origin target := by
    intro o t
    unfold isThreePointShot specThreePointPred
    simp only []
    split_ifs with h1 h2
    · simp [h1, h2]
    · simp [h1, h2]
    · simp [h1]
  refine ⟨hiff, (hiff _ _).mpr ?_⟩
  constructor
  · have hx : scenarioDOrigin.x - rightRimWorld.x = -7 := by
      simp only [scenarioDOrigin]
      ring
    have hz : scenarioDOrigin.z - rightRimWorld.z = 0 := by
      show (0 : ℝ) - 0 = 0
      norm_num
    rw [hx, hz]
    have h49 : ((-7 : ℝ)) ^ 2 + (0 : ℝ) ^ 2 = 7 ^ 2 := by norm_num
    rw [h49, Real.sqrt_sq (by norm_num)]
    norm_num [THREE_POINT_ARC_RADIUS]
  · left
    have hz0 : scenarioDOrigin.z = 0 := rfl
    rw [hz0]
    norm_num [THREE_POINT_STRAIGHT_LINE_Y, COURT_WIDTH]

/-- Claim C3: for a shoot input from a grounded ball, the released velocity is
the perfect constant-acceleration solution toward the nearest hoop scaled by
the power-error factor, exactly the formula stated in the spec. -/
theorem shot_release_velocity_spec (s : GameState) (h : s.isShooting = false) :
    (shootBall s).ballVelocity = specReleaseVelocity s.ballPosition s.shotPower := by
  unfold shootBall specReleaseVelocity
  rw [if_neg (by simp [h])]

theorem shot_release_velocity_spec_witness :
    initialGameState.isShooting = false ∧
    (shootBall initialGameState).ballVelocity =
      specReleaseVelocity initialGameState.ballPosition initialGameState.shotPower :=
  ⟨rfl, shot_release_velocity_spec initialGameState rfl⟩

/-- Claim C2: on a per-hoop collision check, shotsMade increments exactly when
the ball is horizontally within rimRadius minus half the ball radius of the
rim center, vertically within the ball radius, descending, and the attempt
has not already been scored; an ascending ball never scores, a Made attempt
never scores again, and scoring marks the attempt Made. -/
theorem hoop_made_basket_iff (rimPos : Vec3) (s : GameState) :
    ((hoopStep rimPos s).shotsMade = s.shotsMade + 1 ↔
      (rimHorizontalDistance rimPos s < RIM_RADIUS - BALL_RADIUS * 0.5 ∧
        rimVerticalDistance rimPos s < BALL_RADIUS ∧ s.ballVelocity.y < 0 ∧
        s.lastShotResult ≠ ShotResult.made)) ∧
    (0 ≤ s.ballVelocity.y → (hoopStep rimPos s).shotsMade = s.shotsMade) ∧
    (s.lastShotResult = ShotResult.made →
      (hoopStep rimPos s).shotsMade = s.shotsMade ∧ (hoopStep rimPos s).score = s.score) ∧
    ((hoopStep rimPos s).shotsMade = s.shotsMade + 1 →
      (hoopStep rimPos s).lastShotResult = ShotResult.made) := by
  by_cases hm : madeBasketCond rimPos s
  · by_cases hr : s.lastShotResult = ShotResult.made
    · have he : hoopStep rimPos s = s := by
        rw [hoopStep_of_made rimPos s hm]
        unfold scoreBasket
        rw [if_neg (not_not_intro hr)]
      rw [he]
      refine ⟨⟨fun habs => (Nat.succ_ne_self _ habs.symm).elim, ?_⟩,
        fun _ => rfl, fun _ => ⟨rfl, rfl⟩,
        fun habs => (Nat.succ_ne_self _ habs.symm).elim⟩
      rintro ⟨-, -, -, hne⟩
      exact absurd hr hne
    · have he : hoopStep rimPos s = { s with
          score := s.score + (if s.isThreePointer then 3 else 2),
          shotsMade := s.shotsMade + 1, lastShotResult := ShotResult.made } := by
        rw [hoopStep_of_made rimPos s hm, scoreBasket_scores s hr]
      rw [he]
      refine ⟨⟨fun _ => ⟨hm.1, hm.2.1, hm.2.2, hr⟩, fun _ => rfl⟩, ?_, ?_, fun _ => rfl⟩
      · intro hvy
        exact absurd hm.2.2 (not_lt.mpr hvy)
      · intro h
        exact absurd h hr
  · obtain ⟨h1, h2, -⟩ := hoopStep_counters_of_not_made rimPos s hm
    rw [h1, h2]
    refine ⟨⟨fun habs => (Nat.succ_ne_self _ habs.symm).elim, ?_⟩,
      fun _ => rfl, fun _ => ⟨rfl, rfl⟩,
      fun habs => (Nat.succ_ne_self _ habs.symm).elim⟩
    rintro ⟨c1, c2, c3, -⟩
    exact absurd ⟨c1, c2, c3⟩ hm

theorem hoop_made_basket_iff_witness :
    (hoopStep rightRimWorld madeTestState).shotsMade = madeTestState.shotsMade + 1 :=
  (hoop_made_basket_iff rightRimWorld madeTestState).1.mpr
    ⟨by
      rw [rimHorizontalDistance_eq_zero rightRimWorld madeTestState rfl rfl]
      norm_num [RIM_RADIUS, BALL_RADIUS],
     by
      rw [rimVerticalDistance_eq]
      have h1 : madeTestState.ballPosition.y - rightRimWorld.y = -(0.05 : ℝ) := by
        show rightRimWorld.y - 0.05 - rightRimWorld.y = -(0.05 : ℝ)
        ring
      rw [h1, abs_neg, abs_of_nonneg (by norm_num : (0:ℝ) ≤ 0.05)]
      norm_num [BALL_RADIUS],
     by norm_num [madeTestState, initialGameState],
     by simp [madeTestState, initialGameState]⟩

lemma abs_y_offset (rimPos : Vec3) (s : GameState)
    (h : s.ballPosition.y = rimPos.y - 0.05) :
    |s.ballPosition.y - rimPos.y| < BALL_RADIUS := by
  rw [h]
  have h1 : rimPos.y - 0.05 - rimPos.y = -(0.05 : ℝ) := by ring
  rw [h1, abs_neg, abs_of_nonneg (by norm_num : (0:ℝ) ≤ 0.05)]
  norm_num [BALL_RADIUS]

/-- Claim C1 counterexample: from a concrete in-flight attempt whose feedback
timer expires with an empty result, the attempt is set to Missed, yet the
made-basket condition on a later frame of the same attempt still increments
score and shotsMade — the Made transition is not skipped. -/
theorem late_make_counterexample :
    (shotFeedbackStep 0.2 lateMakeState).lastShotResult = ShotResult.missed ∧
    (checkHoopCollision (shotFeedbackStep 0.2 lateMakeState)).score =
      lateMakeState.score + 2 ∧
    (checkHoopCollision (shotFeedbackStep 0.2 lateMakeState)).shotsMade =
      lateMakeState.shotsMade + 1 := by
  have h0 : 0 < lateMakeState.shotFeedbackTimer := by
    norm_num [lateMakeState, initialGameState]
  have h1 : lateMakeState.shotFeedbackTimer ≤ 0.2 := by
    norm_num [lateMakeState, initialGameState]
  have e1 : shotFeedbackStep 0.2 lateMakeState = lateMakeExpired := by
    rw [shotFeedbackStep_expired 0.2 lateMakeState h0 h1 rfl]
    rfl
  have hmade : madeBasketCond rightRimWorld lateMakeExpired := by
    refine madeBasketCond_at_center rightRimWorld lateMakeExpired rfl rfl ?_ ?_
    · exact abs_y_offset rightRimWorld lateMakeExpired rfl
    · show (-1 : ℝ) < 0
      norm_num
  have hneq : lateMakeExpired.lastShotResult ≠ ShotResult.made := by
    show ShotResult.missed ≠ ShotResult.made
    simp
  have e2 : hoopStep rightRimWorld lateMakeExpired = lateMakeScored := by
    rw [hoopStep_of_made rightRimWorld lateMakeExpired hmade,
      scoreBasket_scores lateMakeExpired hneq]
    rfl
  have hfar : RIM_RADIUS + rimThickness ≤ rimHorizontalDistance leftRimWorld lateMakeScored := by
    rw [rimHorizontalDistance_eq]
    rw [Real.le_sqrt' (by norm_num [RIM_RADIUS, rimThickness])]
    have hxx : lateMakeScored.ballPosition.x - leftRimWorld.x =
        rightRimWorld.x - leftRimWorld.x := rfl
    have hzz : lateMakeScored.ballPosition.z - leftRimWorld.z =
        rightRimWorld.z - leftRimWorld.z := rfl
    rw [hxx, hzz]
    norm_num [rightRimWorld, leftRimWorld, yawPi, rimLocalPosition, connectorX, connectorDepth,
      backboardX, poleX, COURT_LENGTH, POLE_RADIUS, BACKBOARD_DIST_FROM_BASELINE,
      RIM_RADIUS, rimThickness]
  have e3 : hoopStep leftRimWorld lateMakeScored = lateMakeScored :=
    hoopStep_of_far leftRimWorld lateMakeScored hfar
  have hmain : checkHoopCollision (shotFeedbackStep 0.2 lateMakeState) = lateMakeScored := by
    unfold checkHoopCollision
    rw [e1, e2, e3]
  refine ⟨by rw [e1]; rfl, ?_, ?_⟩
  · rw [hmain]
    show lateMakeExpired.score + (if lateMakeExpired.isThreePointer then 3 else 2) =
      lateMakeState.score + 2
    simp [lateMakeExpired, lateMakeState, initialGameState]
  · rw [hmain]
    rfl

/-- Claim C1 (amended): when the feedback timer expires while the result is
still empty the attempt is resolved as Missed, but a made-basket condition
that becomes true on a later frame of the same attempt STILL increments
score and shotsMade and overwrites the result to Made, because scoreBasket
only skips when the result is already Made. -/
theorem late_make_scores :
    (∀ (deltaTime : ℝ) (s : GameState), 0 < s.shotFeedbackTimer →
      s.shotFeedbackTimer ≤ deltaTime → s.lastShotResult = ShotResult.empty →
      (shotFeedbackStep deltaTime s).lastShotResult = ShotResult.missed) ∧
    (∀ (rimPos : Vec3) (s : GameState), madeBasketCond rimPos s →
      s.lastShotResult = ShotResult.missed →
      (hoopStep rimPos s).score = s.score + (if s.isThreePointer then 3 else 2) ∧
      (hoopStep rimPos s).shotsMade = s.shotsMade + 1 ∧
      (hoopStep rimPos s).lastShotResult = ShotResult.made) := by
  constructor
  · intro deltaTime s h0 h1 h2
    rw [shotFeedbackStep_expired deltaTime s h0 h1 h2]
  · intro rimPos s hm hr
    have hneq : s.lastShotResult ≠ ShotResult.made := by
      rw [hr]
      simp
    rw [hoopStep_of_made rimPos s hm, scoreBasket_scores s hneq]
    exact ⟨rfl, rfl, rfl⟩

theorem late_make_scores_witness :
    (shotFeedbackStep 0.25 lateMakeState).lastShotResult = ShotResult.missed ∧
    (hoopStep rightRimWorld missedMakeState).shotsMade = missedMakeState.shotsMade + 1 :=
  ⟨late_make_scores.1 0.25 lateMakeState (by norm_num [lateMakeState, initialGameState])
      (by norm_num [lateMakeState, initialGameState]) rfl,
   (late_make_scores.2 rightRimWorld missedMakeState
      (madeBasketCond_at_center rightRimWorld missedMakeState rfl rfl
        (abs_y_offset rightRimWorld missedMakeState rfl)
        (by show (-2 : ℝ) < 0; norm_num)) rfl).2.1⟩

lemma Vec3.length_zero_vec : (Vec3.mk 0 0 0).length = 0 := by
  show Real.sqrt (0 * 0 + 0 * 0 + 0 * 0) = 0
  rw [(by norm_num : (0:ℝ) * 0 + 0 * 0 + 0 * 0 = 0), Real.sqrt_zero]

lemma Vec3.length_le_of_comp (v w : Vec3) (hx : v.x * v.x ≤ w.x * w.x)
    (hy : v.y * v.y ≤ w.y * w.y) (hz : v.z * v.z ≤ w.z * w.z) :
    v.length ≤ w.length :=
  Real.sqrt_le_sqrt (by linarith)

lemma normalize_xaxis (a : ℝ) (ha : 0 < a) :
    (Vec3.mk a 0 0).normalize = Vec3.mk 1 0 0 := by
  have hl : (Vec3.mk a 0 0).length = a := by
    show Real.sqrt (a * a + 0 * 0 + 0 * 0) = a
    rw [(by ring : a * a + 0 * 0 + 0 * 0 = a * a)]
    exact Real.sqrt_mul_self ha.le
  unfold Vec3.normalize
  rw [hl, if_neg (ne_of_gt ha)]
  unfold Vec3.multiplyScalar
  ext
  · show a * (1 / a) = 1
    field_simp
  · show 0 * (1 / a) = 0
    ring
  · show 0 * (1 / a) = 0
    ring

/-- Claim C4 counterexample: a slow ball bouncing off the rim band leaves the
bounce with a strictly larger speed than it entered, because the rim bounce
forces an upward velocity of at least 0.5. -/
theorem rim_bounce_energy_counterexample :
    rimBandCond rightRimWorld rimBounceState ∧
    rimBounceState.ballVelocity.length <
      (hoopStep rightRimWorld rimBounceState).ballVelocity.length := by
  have e1 : (ballToRim rightRimWorld rimBounceState).x = 0.2 := by
    show rightRimWorld.x + 0.2 - rightRimWorld.x = 0.2
    ring
  have e2 : (ballToRim rightRimWorld rimBounceState).z = 0 := by
    show rightRimWorld.z - rightRimWorld.z = 0
    exact sub_self _
  have e3 : (ballToRim rightRimWorld rimBounceState).y = 0 := by
    show rightRimWorld.y - rightRimWorld.y = 0
    exact sub_self _
  have hhd : rimHorizontalDistance rightRimWorld rimBounceState = 0.2 := by
    unfold rimHorizontalDistance
    rw [e1, e2]
    rw [(by norm_num : (0.2:ℝ) * 0.2 + 0 * 0 = 0.2 * 0.2)]
    exact Real.sqrt_mul_self (by norm_num)
  have hvd : rimVerticalDistance rightRimWorld rimBounceState = 0 := by
    unfold rimVerticalDistance
    rw [e3, abs_zero]
  have hband : rimBandCond rightRimWorld rimBounceState := by
    refine ⟨?_, ?_, ?_⟩
    · rw [hvd]
      norm_num [BALL_RADIUS, rimThickness]
    · rw [hhd]
      norm_num [RIM_RADIUS, BALL_RADIUS]
    · rw [hhd]
      norm_num [RIM_RADIUS, rimThickness]
  have hmade : ¬ madeBasketCond rightRimWorld rimBounceState := by
    intro hm
    have h1 := hm.1
    rw [hhd] at h1
    norm_num [RIM_RADIUS, BALL_RADIUS] at h1
  have hstep : hoopStep rightRimWorld rimBounceState = rimBounce rightRimWorld rimBounceState := by
    unfold hoopStep
    rw [if_neg hmade, if_pos hband]
  have hnorm : (Vec3.mk (ballToRim rightRimWorld rimBounceState).x 0
      (ballToRim rightRimWorld rimBounceState).z).normalize = Vec3.mk 1 0 0 := by
    rw [e1, e2]
    exact normalize_xaxis 0.2 (by norm_num)
  have hvel : (rimBounce rightRimWorld rimBounceState).ballVelocity =
      Vec3.mk (-(0.07 : ℝ)) 0.5 0 := by
    unfold rimBounce
    simp only []
    rw [hnorm]
    unfold Vec3.reflect Vec3.dot Vec3.multiplyScalar Vec3.sub
    ext
    · show (rimBounceState.ballVelocity.x -
        1 * (2 * (rimBounceState.ballVelocity.x * 1 + rimBounceState.ballVelocity.y * 0 +
          rimBounceState.ballVelocity.z * 0))) * BOUNCE_DAMPING = -(0.07 : ℝ)
      norm_num [rimBounceState, initialGameState, BOUNCE_DAMPING]
    · show |(rimBounceState.ballVelocity.y -
        0 * (2 * (rimBounceState.ballVelocity.x * 1 + rimBounceState.ballVelocity.y * 0 +
          rimBounceState.ballVelocity.z * 0))) * BOUNCE_DAMPING * BOUNCE_DAMPING * 0.5| +
        0.5 = 0.5
      norm_num [rimBounceState, initialGameState, BOUNCE_DAMPING]
    · show (rimBounceState.ballVelocity.z -
        0 * (2 * (rimBounceState.ballVelocity.x * 1 + rimBounceState.ballVelocity.y * 0 +
          rimBounceState.ballVelocity.z * 0))) * BOUNCE_DAMPING = 0
      norm_num [rimBounceState, initialGameState, BOUNCE_DAMPING]
  have hlv : rimBounceState.ballVelocity.length = 0.1 := by
    show Real.sqrt (0.1 * 0.1 + 0 * 0 + 0 * 0) = 0.1
    rw [(by norm_num : (0.1:ℝ) * 0.1 + 0 * 0 + 0 * 0 = 0.1 * 0.1)]
    exact Real.sqrt_mul_self (by norm_num)
  refine ⟨hband, ?_⟩
  rw [hstep, hvel, hlv]
  show (0.1 : ℝ) < Vec3.length (Vec3.mk (-(0.07 : ℝ)) 0.5 0)
  unfold Vec3.length
  rw [Real.lt_sqrt (by norm_num)]
  norm_num

/-- Claim C4 (amended): floor, wall and backboard bounces never increase the
ball speed, but the rim-band bounce is exempt: it can increase the speed, as
it forces an upward velocity of at least 0.5 (see the counterexample). -/
theorem bounce_damping_monotonic (s : GameState) (isRight : Bool) (backboardPos : Vec3) :
    (floorResolve s).ballVelocity.length ≤ s.ballVelocity.length ∧
    (wallResolveX s).ballVelocity.length ≤ s.ballVelocity.length ∧
    (wallResolveZ s).ballVelocity.length ≤ s.ballVelocity.length ∧
    (backboardStepHoop isRight backboardPos s).ballVelocity.length ≤
      s.ballVelocity.length := by
  refine ⟨?_, ?_, ?_, ?_⟩
  · unfold floorResolve
    simp only []
    split_ifs with h1 h2
    · show (Vec3.mk 0 0 0).length ≤ s.ballVelocity.length
      rw [Vec3.length_zero_vec]
      exact Real.sqrt_nonneg _
    · apply Vec3.length_le_of_comp <;>
        (try dsimp only) <;>
        (try simp only [BOUNCE_DAMPING]) <;>
        nlinarith [mul_self_nonneg s.ballVelocity.x, mul_self_nonneg s.ballVelocity.y,
          mul_self_nonneg s.ballVelocity.z]
    · exact le_refl _
  · unfold wallResolveX
    simp only []
    split_ifs with h1 h2
    · apply Vec3.length_le_of_comp <;>
        (try dsimp only) <;>
        (try simp only [BOUNCE_DAMPING]) <;>
        nlinarith [mul_self_nonneg s.ballVelocity.x, mul_self_nonneg s.ballVelocity.y,
          mul_self_nonneg s.ballVelocity.z]
    · apply Vec3.length_le_of_comp <;>
        (try dsimp only) <;>
        (try simp only [BOUNCE_DAMPING]) <;>
        nlinarith [mul_self_nonneg s.ballVelocity.x, mul_self_nonneg s.ballVelocity.y,
          mul_self_nonneg s.ballVelocity.z]
    · exact le_refl _
  · unfold wallResolveZ
    simp only []
    split_ifs with h1 h2
    · apply Vec3.length_le_of_comp <;>
        (try dsimp only) <;>
        (try simp only [BOUNCE_DAMPING]) <;>
        nlinarith [mul_self_nonneg s.ballVelocity.x, mul_self_nonneg s.ballVelocity.y,
          mul_self_nonneg s.ballVelocity.z]
    · apply Vec3.length_le_of_comp <;>
        (try dsimp only) <;>
        (try simp only [BOUNCE_DAMPING]) <;>
        nlinarith [mul_self_nonneg s.ballVelocity.x, mul_self_nonneg s.ballVelocity.y,
          mul_self_nonneg s.ballVelocity.z]
    · exact le_refl _
  · unfold backboardStepHoop
    simp only []
    split_ifs
    all_goals
      first
        | exact le_refl _
        | (apply Vec3.length_le_of_comp <;>
            (try dsimp only) <;>
            (try simp only [BOUNCE_DAMPING, BACKBOARD_DAMP_FACTOR]) <;>
            nlinarith [mul_self_nonneg s.ballVelocity.x, mul_self_nonneg s.ballVelocity.y,
              mul_self_nonneg s.ballVelocity.z])

-- ---------------------------------------------------------------------------
-- Court-bounds invariant (claim C7) machinery.
-- ---------------------------------------------------------------------------

lemma abs_clamp (m x : ℝ) (hm : 0 ≤ m) : |max (-m) (min m x)| ≤ m := by
  rw [abs_le]
  refine ⟨le_max_left _ _, max_le (by linarith) (min_le_left _ _)⟩

lemma movementStep_bounds (deltaTime : ℝ) (keys : Keys) (s : GameState)
    (hx : |s.ballPosition.x| ≤ COURT_LENGTH / 2 - BALL_RADIUS)
    (hz : |s.ballPosition.z| ≤ COURT_WIDTH / 2 - BALL_RADIUS) :
    |(movementStep deltaTime keys s).ballPosition.x| ≤ COURT_LENGTH / 2 - BALL_RADIUS ∧
    |(movementStep deltaTime keys s).ballPosition.z| ≤ COURT_WIDTH / 2 - BALL_RADIUS := by
  unfold movementStep
  simp only []
  split_ifs
  all_goals
    first
      | exact ⟨hx, hz⟩
      | exact ⟨abs_clamp _ _ (by norm_num [COURT_LENGTH, BALL_RADIUS]),
          abs_clamp _ _ (by norm_num [COURT_WIDTH, BALL_RADIUS])⟩

lemma powerStep_ballPosition (keys : Keys) (s : GameState) :
    (powerStep keys s).ballPosition = s.ballPosition := by
  unfold powerStep
  simp only []
  split_ifs <;> rfl

lemma handleInput_bounds (deltaTime : ℝ) (keys : Keys) (s : GameState)
    (hx : |s.ballPosition.x| ≤ COURT_LENGTH / 2 - BALL_RADIUS)
    (hz : |s.ballPosition.z| ≤ COURT_WIDTH / 2 - BALL_RADIUS) :
    |(handleInput deltaTime keys s).ballPosition.x| ≤ COURT_LENGTH / 2 - BALL_RADIUS ∧
    |(handleInput deltaTime keys s).ballPosition.z| ≤ COURT_WIDTH / 2 - BALL_RADIUS := by
  unfold handleInput
  split_ifs with h1
  · exact ⟨hx, hz⟩
  · rw [powerStep_ballPosition]
    exact movementStep_bounds deltaTime keys s hx hz

lemma wallResolveX_bound (s : GameState) :
    |(wallResolveX s).ballPosition.x| ≤ COURT_LENGTH / 2 - BALL_RADIUS := by
  unfold wallResolveX
  simp only []
  split_ifs with h1 h2
  · show |COURT_LENGTH / 2 - BALL_RADIUS| ≤ COURT_LENGTH / 2 - BALL_RADIUS
    rw [abs_of_nonneg (by norm_num [COURT_LENGTH, BALL_RADIUS])]
  · show |-(COURT_LENGTH / 2 - BALL_RADIUS)| ≤ COURT_LENGTH / 2 - BALL_RADIUS
    rw [abs_neg, abs_of_nonneg (by norm_num [COURT_LENGTH, BALL_RADIUS])]
  · exact le_of_lt (abs_lt.mpr ⟨by push_neg at h2; linarith, by push_neg at h1; linarith⟩)

lemma wallResolveX_z (s : GameState) :
    (wallResolveX s).ballPosition.z = s.ballPosition.z := by
  unfold wallResolveX
  simp only []
  split_ifs <;> rfl

lemma wallResolveZ_bound (s : GameState) :
    |(wallResolveZ s).ballPosition.z| ≤ COURT_WIDTH / 2 - BALL_RADIUS := by
  unfold wallResolveZ
  simp only []
  split_ifs with h1 h2
  · show |COURT_WIDTH / 2 - BALL_RADIUS| ≤ COURT_WIDTH / 2 - BALL_RADIUS
    rw [abs_of_nonneg (by norm_num [COURT_WIDTH, BALL_RADIUS])]
  · show |-(COURT_WIDTH / 2 - BALL_RADIUS)| ≤ COURT_WIDTH / 2 - BALL_RADIUS
    rw [abs_neg, abs_of_nonneg (by norm_num [COURT_WIDTH, BALL_RADIUS])]
  · exact le_of_lt (abs_lt.mpr ⟨by push_neg at h2; linarith, by push_neg at h1; linarith⟩)

lemma wallResolveZ_x (s : GameState) :
    (wallResolveZ s).ballPosition.x = s.ballPosition.x := by
  unfold wallResolveZ
  simp only []
  split_ifs <;> rfl

lemma wall_establish (s : GameState) :
    |(wallResolveZ (wallResolveX s)).ballPosition.x| ≤ COURT_LENGTH / 2 - BALL_RADIUS ∧
    |(wallResolveZ (wallResolveX s)).ballPosition.z| ≤ COURT_WIDTH / 2 - BALL_RADIUS := by
  constructor
  · rw [wallResolveZ_x]
    exact wallResolveX_bound _
  · exact wallResolveZ_bound _

lemma rotationStep_position (deltaTime : ℝ) (s : GameState) :
    (rotationStep deltaTime s).ballPosition = s.ballPosition := by
  unfold rotationStep
  simp only []
  split_ifs <;> rfl

lemma shotFeedbackStep_position (deltaTime : ℝ) (s : GameState) :
    (shotFeedbackStep deltaTime s).ballPosition = s.ballPosition := by
  unfold shotFeedbackStep
  simp only []
  split_ifs <;> rfl

lemma backboardStepHoop_z (isRight : Bool) (backboardPos : Vec3) (s : GameState) :
    (backboardStepHoop isRight backboardPos s).ballPosition.z = s.ballPosition.z := by
  unfold backboardStepHoop
  simp only []
  split_ifs <;> rfl

lemma backboardStepHoop_x_cases (isRight : Bool) (backboardPos : Vec3) (s : GameState) :
    (backboardStepHoop isRight backboardPos s).ballPosition.x = s.ballPosition.x ∨
    (backboardStepHoop isRight backboardPos s).ballPosition.x =
      backboardPos.x - (backboardThickness / 2 + BALL_RADIUS) ∨
    (backboardStepHoop isRight backboardPos s).ballPosition.x =
      backboardPos.x + (backboardThickness / 2 + BALL_RADIUS) := by
  unfold backboardStepHoop
  simp only []
  split_ifs
  all_goals
    first
      | exact Or.inl rfl
      | exact Or.inr (Or.inl rfl)
      | exact Or.inr (Or.inr rfl)

lemma backboardStepHoop_x_bound (isRight : Bool) (backboardPos : Vec3) (s : GameState)
    (hx : |s.ballPosition.x| ≤ COURT_LENGTH / 2 - BALL_RADIUS)
    (hb : |backboardPos.x| + (backboardThickness / 2 + BALL_RADIUS) ≤
      COURT_LENGTH / 2 - BALL_RADIUS) :
    |(backboardStepHoop isRight backboardPos s).ballPosition.x| ≤
      COURT_LENGTH / 2 - BALL_RADIUS := by
  have hth : (0:ℝ) ≤ backboardThickness / 2 + BALL_RADIUS := by
    norm_num [backboardThickness, BALL_RADIUS]
  rcases backboardStepHoop_x_cases isRight backboardPos s with h | h | h <;> rw [h]
  · exact hx
  · calc |backboardPos.x - (backboardThickness / 2 + BALL_RADIUS)|
        ≤ |backboardPos.x| + |backboardThickness / 2 + BALL_RADIUS| := abs_sub _ _
      _ = |backboardPos.x| + (backboardThickness / 2 + BALL_RADIUS) := by
          rw [abs_of_nonneg hth]
      _ ≤ COURT_LENGTH / 2 - BALL_RADIUS := hb
  · calc |backboardPos.x + (backboardThickness / 2 + BALL_RADIUS)|
        ≤ |backboardPos.x| + |backboardThickness / 2 + BALL_RADIUS| := abs_add _ _
      _ = |backboardPos.x| + (backboardThickness / 2 + BALL_RADIUS) := by
          rw [abs_of_nonneg hth]
      _ ≤ COURT_LENGTH / 2 - BALL_RADIUS := hb

lemma checkBackboardCollision_bounds (s : GameState)
    (hx : |s.ballPosition.x| ≤ COURT_LENGTH / 2 - BALL_RADIUS)
    (hz : |s.ballPosition.z| ≤ COURT_WIDTH / 2 - BALL_RADIUS) :
    |(checkBackboardCollision s).ballPosition.x| ≤ COURT_LENGTH / 2 - BALL_RADIUS ∧
    |(checkBackboardCollision s).ballPosition.z| ≤ COURT_WIDTH / 2 - BALL_RADIUS := by
  have hgr : |rightBackboardWorld.x| + (backboardThickness / 2 + BALL_RADIUS) ≤
      COURT_LENGTH / 2 - BALL_RADIUS := by
    have hrw : rightBackboardWorld.x = 13.3 := by
      norm_num [rightBackboardWorld, backboardLocalPosition, backboardX, poleX,
        COURT_LENGTH, POLE_RADIUS, BACKBOARD_DIST_FROM_BASELINE]
    rw [hrw, abs_of_nonneg (by norm_num : (0:ℝ) ≤ 13.3)]
    norm_num [backboardThickness, BALL_RADIUS, COURT_LENGTH]
  have hgl : |leftBackboardWorld.x| + (backboardThickness / 2 + BALL_RADIUS) ≤
      COURT_LENGTH / 2 - BALL_RADIUS := by
    have hlw : leftBackboardWorld.x = -(13.3 : ℝ) := by
      norm_num [leftBackboardWorld, yawPi, backboardLocalPosition, backboardX, poleX,
        COURT_LENGTH, POLE_RADIUS, BACKBOARD_DIST_FROM_BASELINE]
    rw [hlw, abs_neg, abs_of_nonneg (by norm_num : (0:ℝ) ≤ 13.3)]
    norm_num [backboardThickness, BALL_RADIUS, COURT_LENGTH]
  unfold checkBackboardCollision
  constructor
  · exact backboardStepHoop_x_bound false leftBackboardWorld _
      (backboardStepHoop_x_bound true rightBackboardWorld s hx hgr) hgl
  · rw [backboardStepHoop_z, backboardStepHoop_z]
    exact hz

lemma offset_bound (rx px d sc : ℝ) (hd_pos : 0 < d) (hb : |px - rx| ≤ d)
    (hsum : 0 ≤ d + sc) :
    |px + (px - rx) * (1 / d) * sc| ≤ |rx| + (d + sc) := by
  have h1 : px + (px - rx) * (1 / d) * sc = rx + (px - rx) * ((d + sc) / d) := by
    field_simp
    ring
  rw [h1]
  calc |rx + (px - rx) * ((d + sc) / d)|
      ≤ |rx| + |(px - rx) * ((d + sc) / d)| := abs_add _ _
    _ ≤ |rx| + (d + sc) := by
        have h2 : |(px - rx) * ((d + sc) / d)| = |px - rx| * ((d + sc) / d) := by
          rw [abs_mul, abs_of_nonneg (div_nonneg hsum hd_pos.le)]
        have h3 : |px - rx| * ((d + sc) / d) ≤ d * ((d + sc) / d) :=
          mul_le_mul_of_nonneg_right hb (div_nonneg hsum hd_pos.le)
        have h4 : d * ((d + sc) / d) = d + sc := by field_simp
        rw [h2]
        linarith

lemma abs_sub_le_rimHD_x (rimPos : Vec3) (s : GameState) :
    |s.ballPosition.x - rimPos.x| ≤ rimHorizontalDistance rimPos s := by
  rw [rimHorizontalDistance_eq]
  calc |s.ballPosition.x - rimPos.x|
      = Real.sqrt ((s.ballPosition.x - rimPos.x) * (s.ballPosition.x - rimPos.x)) :=
        (Real.sqrt_mul_self_eq_abs _).symm
    _ ≤ Real.sqrt ((s.ballPosition.x - rimPos.x) * (s.ballPosition.x - rimPos.x) +
        (s.ballPosition.z - rimPos.z) * (s.ballPosition.z - rimPos.z)) :=
        Real.sqrt_le_sqrt (by nlinarith [mul_self_nonneg (s.ballPosition.z - rimPos.z)])

lemma abs_sub_le_rimHD_z (rimPos : Vec3) (s : GameState) :
    |s.ballPosition.z - rimPos.z| ≤ rimHorizontalDistance rimPos s := by
  rw [rimHorizontalDistance_eq]
  calc |s.ballPosition.z - rimPos.z|
      = Real.sqrt ((s.ballPosition.z - rimPos.z) * (s.ballPosition.z - rimPos.z)) :=
        (Real.sqrt_mul_self_eq_abs _).symm
    _ ≤ Real.sqrt ((s.ballPosition.x - rimPos.x) * (s.ballPosition.x - rimPos.x) +
        (s.ballPosition.z - rimPos.z) * (s.ballPosition.z - rimPos.z)) :=
        Real.sqrt_le_sqrt (by nlinarith [mul_self_nonneg (s.ballPosition.x - rimPos.x)])

lemma rimBounce_position_bound (rimPos : Vec3) (s : GameState)
    (hband : rimBandCond rimPos s) :
    |(rimBounce rimPos s).ballPosition.x| ≤ |rimPos.x| + (RIM_RADIUS + BALL_RADIUS + 0.01) ∧
    |(rimBounce rimPos s).ballPosition.z| ≤ |rimPos.z| + (RIM_RADIUS + BALL_RADIUS + 0.01) := by
  have hd_pos : 0 < rimHorizontalDistance rimPos s := by
    have h1 := hband.2.1
    have h2 : (0:ℝ) < RIM_RADIUS - BALL_RADIUS := by norm_num [RIM_RADIUS, BALL_RADIUS]
    linarith
  have hL : (Vec3.mk (ballToRim rimPos s).x 0 (ballToRim rimPos s).z).length =
      rimHorizontalDistance rimPos s := by
    show Real.sqrt ((ballToRim rimPos s).x * (ballToRim rimPos s).x + 0 * 0 +
      (ballToRim rimPos s).z * (ballToRim rimPos s).z) = rimHorizontalDistance rimPos s
    rw [rimHorizontalDistance_eq, ballToRim_x, ballToRim_z]
    congr 1
    ring
  have hn : (Vec3.mk (ballToRim rimPos s).x 0 (ballToRim rimPos s).z).normalize =
      Vec3.mk ((ballToRim rimPos s).x * (1 / rimHorizontalDistance rimPos s))
        (0 * (1 / rimHorizontalDistance rimPos s))
        ((ballToRim rimPos s).z * (1 / rimHorizontalDistance rimPos s)) := by
    unfold Vec3.normalize
    rw [hL, if_neg (ne_of_gt hd_pos)]
    rfl
  have hsum : 0 ≤ rimHorizontalDistance rimPos s +
      (RIM_RADIUS + BALL_RADIUS - rimHorizontalDistance rimPos s + 0.01) := by
    have he : rimHorizontalDistance rimPos s +
        (RIM_RADIUS + BALL_RADIUS - rimHorizontalDistance rimPos s + 0.01) =
        RIM_RADIUS + BALL_RADIUS + 0.01 := by ring
    rw [he]
    norm_num [RIM_RADIUS, BALL_RADIUS]
  have hx' : (rimBounce rimPos s).ballPosition.x =
      s.ballPosition.x + (s.ballPosition.x - rimPos.x) *
        (1 / rimHorizontalDistance rimPos s) *
        (RIM_RADIUS + BALL_RADIUS - rimHorizontalDistance rimPos s + 0.01) := by
    unfold rimBounce
    simp only []
    rw [hn]
    show s.ballPosition.x + (ballToRim rimPos s).x * (1 / rimHorizontalDistance rimPos s) *
      (RIM_RADIUS + BALL_RADIUS - rimHorizontalDistance rimPos s + 0.01) = _
    rw [ballToRim_x]
  have hz' : (rimBounce rimPos s).ballPosition.z =
      s.ballPosition.z + (s.ballPosition.z - rimPos.z) *
        (1 / rimHorizontalDistance rimPos s) *
        (RIM_RADIUS + BALL_RADIUS - rimHorizontalDistance rimPos s + 0.01) := by
    unfold rimBounce
    simp only []
    rw [hn]
    show s.ballPosition.z + (ballToRim rimPos s).z * (1 / rimHorizontalDistance rimPos s) *
      (RIM_RADIUS + BALL_RADIUS - rimHorizontalDistance rimPos s + 0.01) = _
    rw [ballToRim_z]
  constructor
  · rw [hx']
    have hob := offset_bound rimPos.x s.ballPosition.x (rimHorizontalDistance rimPos s)
      (RIM_RADIUS + BALL_RADIUS - rimHorizontalDistance rimPos s + 0.01) hd_pos
      (abs_sub_le_rimHD_x rimPos s) hsum
    calc |s.ballPosition.x + (s.ballPosition.x - rimPos.x) *
        (1 / rimHorizontalDistance rimPos s) *
        (RIM_RADIUS + BALL_RADIUS - rimHorizontalDistance rimPos s + 0.01)|
        ≤ |rimPos.x| + (rimHorizontalDistance rimPos s +
          (RIM_RADIUS + BALL_RADIUS - rimHorizontalDistance rimPos s + 0.01)) := hob
      _ = |rimPos.x| + (RIM_RADIUS + BALL_RADIUS + 0.01) := by ring
  · rw [hz']
    have hob := offset_bound rimPos.z s.ballPosition.z (rimHorizontalDistance rimPos s)
      (RIM_RADIUS + BALL_RADIUS - rimHorizontalDistance rimPos s + 0.01) hd_pos
      (abs_sub_le_rimHD_z rimPos s) hsum
    calc |s.ballPosition.z + (s.ballPosition.z - rimPos.z) *
        (1 / rimHorizontalDistance rimPos s) *
        (RIM_RADIUS + BALL_RADIUS - rimHorizontalDistance rimPos s + 0.01)|
        ≤ |rimPos.z| + (rimHorizontalDistance rimPos s +
          (RIM_RADIUS + BALL_RADIUS - rimHorizontalDistance rimPos s + 0.01)) := hob
      _ = |rimPos.z| + (RIM_RADIUS + BALL_RADIUS + 0.01) := by ring

lemma hoopStep_position_bound (rimPos : Vec3) (s : GameState)
    (hx : |s.ballPosition.x| ≤ COURT_LENGTH / 2 - BALL_RADIUS)
    (hz : |s.ballPosition.z| ≤ COURT_WIDTH / 2 - BALL_RADIUS)
    (hrx : |rimPos.x| + (RIM_RADIUS + BALL_RADIUS + 0.01) ≤ COURT_LENGTH / 2 - BALL_RADIUS)
    (hrz : |rimPos.z| + (RIM_RADIUS + BALL_RADIUS + 0.01) ≤ COURT_WIDTH / 2 - BALL_RADIUS) :
    |(hoopStep rimPos s).ballPosition.x| ≤ COURT_LENGTH / 2 - BALL_RADIUS ∧
    |(hoopStep rimPos s).ballPosition.z| ≤ COURT_WIDTH / 2 - BALL_RADIUS := by
  unfold hoopStep
  split_ifs with hm hb
  · rw [scoreBasket_ballPosition]
    exact ⟨hx, hz⟩
  · obtain ⟨bx', bz'⟩ := rimBounce_position_bound rimPos s hb
    exact ⟨le_trans bx' hrx, le_trans bz' hrz⟩
  · exact ⟨hx, hz⟩

lemma checkHoopCollision_bounds (s : GameState)
    (hx : |s.ballPosition.x| ≤ COURT_LENGTH / 2 - BALL_RADIUS)
    (hz : |s.ballPosition.z| ≤ COURT_WIDTH / 2 - BALL_RADIUS) :
    |(checkHoopCollision s).ballPosition.x| ≤ COURT_LENGTH / 2 - BALL_RADIUS ∧
    |(checkHoopCollision s).ballPosition.z| ≤ COURT_WIDTH / 2 - BALL_RADIUS := by
  have hrx : |rightRimWorld.x| + (RIM_RADIUS + BALL_RADIUS + 0.01) ≤
      COURT_LENGTH / 2 - BALL_RADIUS := by
    have h : rightRimWorld.x = 12.885 := by
      norm_num [rightRimWorld, rimLocalPosition, connectorX, connectorDepth, backboardX,
        poleX, COURT_LENGTH, POLE_RADIUS, BACKBOARD_DIST_FROM_BASELINE, RIM_RADIUS]
    rw [h, abs_of_nonneg (by norm_num : (0:ℝ) ≤ 12.885)]
    norm_num [RIM_RADIUS, BALL_RADIUS, COURT_LENGTH]
  have hrz : |rightRimWorld.z| + (RIM_RADIUS + BALL_RADIUS + 0.01) ≤
      COURT_WIDTH / 2 - BALL_RADIUS := by
    have h : rightRimWorld.z = 0 := rfl
    rw [h, abs_zero]
    norm_num [RIM_RADIUS, BALL_RADIUS, COURT_WIDTH]
  have hlx : |leftRimWorld.x| + (RIM_RADIUS + BALL_RADIUS + 0.01) ≤
      COURT_LENGTH / 2 - BALL_RADIUS := by
    have h : leftRimWorld.x = -(12.885 : ℝ) := by
      norm_num [leftRimWorld, yawPi, rimLocalPosition, connectorX, connectorDepth, backboardX,
        poleX, COURT_LENGTH, POLE_RADIUS, BACKBOARD_DIST_FROM_BASELINE, RIM_RADIUS]
    rw [h, abs_neg, abs_of_nonneg (by norm_num : (0:ℝ) ≤ 12.885)]
    norm_num [RIM_RADIUS, BALL_RADIUS, COURT_LENGTH]
  have hlz : |leftRimWorld.z| + (RIM_RADIUS + BALL_RADIUS + 0.01) ≤
      COURT_WIDTH / 2 - BALL_RADIUS := by
    have h : leftRimWorld.z = 0 := by
      norm_num [leftRimWorld, yawPi, rimLocalPosition]
    rw [h, abs_zero]
    norm_num [RIM_RADIUS, BALL_RADIUS, COURT_WIDTH]
  unfold checkHoopCollision
  have h1 := hoopStep_position_bound rightRimWorld s hx hz hrx hrz
  exact hoopStep_position_bound leftRimWorld _ h1.1 h1.2 hlx hlz

lemma updateBallPhysics_bounds (deltaTime : ℝ) (s : GameState)
    (hx : |s.ballPosition.x| ≤ COURT_LENGTH / 2 - BALL_RADIUS)
    (hz : |s.ballPosition.z| ≤ COURT_WIDTH / 2 - BALL_RADIUS) :
    |(updateBallPhysics deltaTime s).ballPosition.x| ≤ COURT_LENGTH / 2 - BALL_RADIUS ∧
    |(updateBallPhysics deltaTime s).ballPosition.z| ≤ COURT_WIDTH / 2 - BALL_RADIUS := by
  unfold updateBallPhysics
  simp only []
  split_ifs with hsh
  · have hw := wall_establish (floorResolve (integrateStep deltaTime
      { s with lastBallPosition := s.ballPosition }))
    have h3x : |(rotationStep deltaTime (wallResolveZ (wallResolveX (floorResolve
        (integrateStep deltaTime { s with lastBallPosition := s.ballPosition
          }))))).ballPosition.x| ≤ COURT_LENGTH / 2 - BALL_RADIUS := by
      rw [rotationStep_position]
      exact hw.1
    have h3z : |(rotationStep deltaTime (wallResolveZ (wallResolveX (floorResolve
        (integrateStep deltaTime { s with lastBallPosition := s.ballPosition
          }))))).ballPosition.z| ≤ COURT_WIDTH / 2 - BALL_RADIUS := by
      rw [rotationStep_position]
      exact hw.2
    have h4 := checkBackboardCollision_bounds _ h3x h3z
    exact checkHoopCollision_bounds _ h4.1 h4.2
  · exact ⟨hx, hz⟩

/-- Claim C7: each frame preserves the court-bounds invariant: after input
handling and collision resolution the ball position stays within
courtHalfLength minus ballRadius in x and courtHalfWidth minus ballRadius in
z — the wall clamps, the grounded-movement clamp and the backboard/rim
repositioning all keep the ball inside the court. -/
theorem court_bounds_invariant (deltaTime : ℝ) (keys : Keys) (s : GameState)
    (hx : |s.ballPosition.x| ≤ COURT_LENGTH / 2 - BALL_RADIUS)
    (hz : |s.ballPosition.z| ≤ COURT_WIDTH / 2 - BALL_RADIUS) :
    |(frameStep deltaTime keys s).ballPosition.x| ≤ COURT_LENGTH / 2 - BALL_RADIUS ∧
    |(frameStep deltaTime keys s).ballPosition.z| ≤ COURT_WIDTH / 2 - BALL_RADIUS := by
  unfold frameStep
  rw [shotFeedbackStep_position]
  have h1 := handleInput_bounds deltaTime keys s hx hz
  exact updateBallPhysics_bounds deltaTime _ h1.1 h1.2

theorem court_bounds_invariant_witness :
    |initialGameState.ballPosition.x| ≤ COURT_LENGTH / 2 - BALL_RADIUS ∧
    |(frameStep 0.016 noKeys initialGameState).ballPosition.x| ≤
      COURT_LENGTH / 2 - BALL_RADIUS ∧
    |(frameStep 0.016 noKeys initialGameState).ballPosition.z| ≤
      COURT_WIDTH / 2 - BALL_RADIUS := by
  have h0x : |initialGameState.ballPosition.x| ≤ COURT_LENGTH / 2 - BALL_RADIUS := by
    show |(0:ℝ)| ≤ COURT_LENGTH / 2 - BALL_RADIUS
    rw [abs_zero]
    norm_num [COURT_LENGTH, BALL_RADIUS]
  have h0z : |initialGameState.ballPosition.z| ≤ COURT_WIDTH / 2 - BALL_RADIUS := by
    show |(0:ℝ)| ≤ COURT_WIDTH / 2 - BALL_RADIUS
    rw [abs_zero]
    norm_num [COURT_WIDTH, BALL_RADIUS]
  have h := court_bounds_invariant 0.016 noKeys initialGameState h0x h0z
  exact ⟨h0x, h.1, h.2⟩

end
